import Mathlib

/-!
Shallow embedding of the MindRemember API backend
(src/MindRememberApi/src/users/{models,service,router,dependencies}.py)
and proofs about its authentication and entity-repository behaviour.

Modelling conventions:
* Database rows are Lean structures mirroring the declarative ORM classes
  in models.py; the store is a record of lists, one per table.
* Timestamps are natural numbers (seconds since epoch); each operation that
  reads the wall clock takes the current time as an explicit argument.
* The passlib bcrypt context is an external collaborator; it is modelled by
  a deterministic tagging function satisfying bcrypt's functional contract
  (verify p (hash p) = true, a hash is never the plaintext).
* python-jose JWTs are modelled as an inductive: either a structurally
  malformed blob or a (payload, signature) pair; jwt.encode signs the
  payload with the process secret, jwt.decode checks the signature and then
  the expiry claim exactly as jose does (expired iff exp < now, leeway 0).
* Store-level commit failures are an oracle argument `exc : Option StoreExc`
  to each write: `none` means the commit succeeds, `some e` means the
  store raises `e` during the commit.  A raised exception means nothing was
  persisted, so the store component of the result equals the input store.
* FastAPI handlers are functions of the request data (cookie included); a
  `Depends(get_current_user)` that raises becomes a `domainError` result.
-/

deriving instance DecidableEq for Except

namespace MindRemember

/-! ## Data model (models.py, declarative classes) -/

/-- Row of the `users` table: unique id, unique login, stored password hash. -/
structure User where
  id : Nat
  login : String
  password : String
deriving DecidableEq, Repr

/-- Row of the `folders` table. -/
structure Folder where
  id : Nat
  text_folder : String
  number_of_topics : Nat
  last_open_date_time : Option Nat
  user_id : Nat
deriving DecidableEq, Repr

/-- Row of the `themes` table. -/
structure Theme where
  id : Nat
  name_theme : String
  last_open_date_time : Option Nat
  number_of_records : Nat
  folder_id : Nat
deriving DecidableEq, Repr

/-- Row of the `records` table. -/
structure Record where
  id : Nat
  name_record : String
  text_records : String
  last_open_date_time : Option Nat
  count_text : Nat
  theme_id : Nat
deriving DecidableEq, Repr

/-- Row of the `knowledge_queues` table. -/
structure KnowledgeQueue where
  id : Nat
  content_knowledge_queue : String
  completed_task_status : Bool
  number_of_cycles : Nat
  create_date_time : Option Nat
  next_alert_card : Option Nat
  user_id : Nat
deriving DecidableEq, Repr

/-- The relational store: one list per table. -/
structure DB where
  users : List User
  folders : List Folder
  themes : List Theme
  records : List Record
  queues : List KnowledgeQueue
deriving DecidableEq, Repr

/-- The empty database. -/
def DB.empty : DB := ⟨[], [], [], [], []⟩

/-- Autoincrement primary key: one more than the largest id in the table. -/
def nextId (ids : List Nat) : Nat := ids.foldr max 0 + 1

/-! ## Request schemas (schemas.py is absent from src/) -/

/-- Modelled from the spec: schemas.py is missing from src/; the
registration endpoint accepts `(login, password)` (spec section 6). -/
structure UserCreate where
  login : String
  password : String
deriving DecidableEq, Repr

/-- Modelled from the spec: login endpoint payload
`(username, hashed_password)` (spec section 6). -/
structure UserInDB where
  username : String
  hashed_password : String
deriving DecidableEq, Repr

/-- Modelled from the spec: folder creation carries the display text
(spec section 8 scenario: create folder with a text_folder value). -/
structure FolderCreate where
  text_folder : String
deriving DecidableEq, Repr

/-- Modelled from the spec: theme creation carries the theme name. -/
structure ThemeCreate where
  name_theme : String
deriving DecidableEq, Repr

/-- Modelled from the spec: record creation carries name and text body. -/
structure RecordCreate where
  name_record : String
  text_records : String
deriving DecidableEq, Repr

/-- Modelled from the spec: knowledge-queue creation carries the content
string and possibly a caller-supplied next-alert value, which the create
operation explicitly nulls out (spec sections 4.4 and 9). -/
structure KnowledgeQueueCreate where
  content_knowledge_queue : String
  next_alert_card : Option Nat
deriving DecidableEq, Repr

/-! ## Errors -/

/-- Model of fastapi.HTTPException: status code, detail message, and whether
the `WWW-Authenticate: Bearer` header is attached. -/
structure HTTPError where
  status_code : Nat
  detail : String
  wwwAuthenticateBearer : Bool
deriving DecidableEq, Repr

/-- Store-level exceptions that a commit can raise (sqlalchemy.exc):
the uniqueness/integrity violation, or any other operational error. -/
inductive StoreExc where
  | integrityError
  | operationalError
deriving DecidableEq, Repr

/-- Outcome of a write endpoint or service call: success, a domain
HTTPException, or a raw store exception that escaped uncaught. -/
inductive CreateOutcome (α : Type) where
  | ok (v : α)
  | domainError (e : HTTPError)
  | rawException (e : StoreExc)
deriving DecidableEq, Repr

/-! ## Credential store (passlib CryptContext, external collaborator) -/

/-- Model of `pwd_context.hash` (service.py `get_password_hash`): bcrypt is
modelled as a deterministic tag so that `verify` recognises exactly the
hash of the same plaintext; real bcrypt output always starts with a scheme
prefix and is never the plaintext itself. -/
def get_password_hash (password : String) : String :=
  "$2b$12$" ++ password

/-- Model of `pwd_context.verify` (service.py `verify_password`): true iff
the plaintext hashes to the stored value under the same scheme. -/
def verify_password (plain_password hashed_password : String) : Bool :=
  hashed_password == get_password_hash plain_password

/-! ## Token service (python-jose, service.py) -/

/-- JWT claims used by this application: the subject (`sub`) entry of the
payload dict, possibly absent, and the `exp` expiry timestamp. -/
structure JWTPayload where
  sub : Option String
  exp : Nat
deriving DecidableEq, Repr

/-- Inbound token: either a structurally malformed blob or a payload with a
signature string. -/
inductive JWT where
  | malformed (raw : String)
  | signed (payload : JWTPayload) (sig : String)
deriving DecidableEq, Repr

/-- Signature a correct signer produces for a payload under a secret key
(concrete model of HMAC under the configured algorithm: any deterministic
key-and-payload-dependent value works, since decode compares for equality). -/
def jwtSign (key : String) (p : JWTPayload) : String :=
  key ++ "." ++ p.sub.getD "" ++ "." ++ toString p.exp

/-- Model of `jose.jwt.encode`: sign the payload with the secret key. -/
def jwtEncode (p : JWTPayload) (key : String) : JWT :=
  .signed p (jwtSign key p)

/-- The JWTError taxonomy relevant here (all are subclasses of JWTError
caught by service.py). -/
inductive JWTErr where
  | malformed
  | signatureInvalid
  | expired
deriving DecidableEq, Repr

/-- Model of `jose.jwt.decode`: verify the signature, then the `exp` claim.
python-jose raises ExpiredSignatureError iff exp < now (leeway 0). -/
def jwtDecode (t : JWT) (key : String) (now : Nat) : Except JWTErr JWTPayload :=
  match t with
  | .malformed _ => .error .malformed
  | .signed p sig =>
    if sig ≠ jwtSign key p then .error .signatureInvalid
    else if p.exp < now then .error .expired
    else .ok p

/-- Python truthiness of an optional timedelta: `None` and the zero
timedelta are both falsy; `if expires_delta:` in service.py tests exactly
this. -/
def timedeltaTruthy (d : Option Nat) : Bool :=
  match d with
  | none => false
  | some x => x ≠ 0

/-- Model of service.py `create_access_token`: copy the data, choose the
expiry from `expires_delta` when it is truthy, otherwise from the
configured default TTL (minutes), and sign with the secret key.
`default_minutes` stands for the env-provided ACCESS_TOKEN_EXPIRE_MINUTES
(config.py is absent from src/, so the value is a parameter). -/
def create_access_token (sub : Option String) (expires_delta : Option Nat)
    (now : Nat) (key : String) (default_minutes : Nat) : JWT :=
  let expire :=
    if timedeltaTruthy expires_delta then now + expires_delta.getD 0
    else now + default_minutes * 60
  jwtEncode { sub := sub, exp := expire } key

/-! ## User operations (service.py, dependencies.py) -/

/-- Conflict raised by create_user when the insert violates the login
uniqueness constraint (service.py, IntegrityError handler). -/
def integrityConflictError : HTTPError :=
  { status_code := 400, detail := "A user with this login already exists.",
    wwwAuthenticateBearer := false }

/-- Successful registration response of service.py `create_user`:
a dict with a status field and the full persisted user row. -/
structure RegResponse where
  status : Nat
  data : User
deriving DecidableEq, Repr

/-- Model of service.py `create_user`: build the row, replace its password
with the hash, add and commit.  An IntegrityError during the commit is
caught, the transaction rolled back and converted to the 400 conflict; any
other store exception is not caught (only `except IntegrityError` appears
in the source) and escapes raw, with nothing persisted. -/
def create_user (user : UserCreate) (db : DB) (exc : Option StoreExc) :
    DB × CreateOutcome RegResponse :=
  let new_user : User :=
    { id := nextId (db.users.map (fun u => u.id)),
      login := user.login,
      password := get_password_hash user.password }
  match exc with
  | none =>
    ({ db with users := db.users ++ [new_user] },
      .ok { status := 201, data := new_user })
  | some .integrityError => (db, .domainError integrityConflictError)
  | some .operationalError => (db, .rawException .operationalError)

/-- Model of service.py `get_user`: first row of `users` whose login equals
the username. -/
def get_user (db : DB) (username : String) : Option User :=
  (db.users.filter (fun u => u.login == username)).head?

/-- Model of service.py `authenticate_user`: `none` stands for Python's
`False` (unknown login, or stored hash does not verify); otherwise the
authenticated user row. -/
def authenticate_user (db : DB) (username password : String) : Option User :=
  match get_user db username with
  | none => none
  | some u => if verify_password password u.password then some u else none

/-- Conflict raised by the `check_unique_login` dependency
(dependencies.py) when the login is already registered. -/
def loginTakenError : HTTPError :=
  { status_code := 409,
    detail := "Пользователь с таким логином уже зарегистрирован в базе данных.",
    wwwAuthenticateBearer := false }

/-- Model of dependencies.py `check_unique_login`: look up an existing user
with the same login and raise the 409 conflict when one exists. -/
def check_unique_login (user : UserCreate) (db : DB) : Option HTTPError :=
  match get_user db user.login with
  | some _ => some loginTakenError
  | none => none

/-! ## Identity resolver (service.py `get_current_user`) -/

/-- The single 401 raised by `get_current_user` for every failure cause. -/
def credentials_exception : HTTPError :=
  { status_code := 401, detail := "Could not verify credentials",
    wwwAuthenticateBearer := true }

/-- Model of service.py `get_current_user`: read the `access_token` cookie;
missing cookie, any JWTError from decode, a payload without a subject, and
a subject with no matching user all raise the same `credentials_exception`;
otherwise return the user found by login. -/
def get_current_user (access_token : Option JWT) (db : DB) (key : String)
    (now : Nat) : Except HTTPError User :=
  match access_token with
  | none => .error credentials_exception
  | some tok =>
    match jwtDecode tok key now with
    | .error _ => .error credentials_exception
    | .ok payload =>
      match payload.sub with
      | none => .error credentials_exception
      | some username =>
        match get_user db username with
        | none => .error credentials_exception
        | some u => .ok u

/-! ## Entity services (service.py) -/

/-- Generic 400 raised by add_folder on any exception during the commit. -/
def folderAddFailedError : HTTPError :=
  { status_code := 400, detail := "Failed to add folder.",
    wwwAuthenticateBearer := false }

/-- Generic 400 raised by add_theme on any exception during the commit. -/
def themeAddFailedError : HTTPError :=
  { status_code := 400, detail := "Failed to add theme.",
    wwwAuthenticateBearer := false }

/-- Generic 400 raised by add_record on any exception during the commit. -/
def recordAddFailedError : HTTPError :=
  { status_code := 400, detail := "Failed to add record.",
    wwwAuthenticateBearer := false }

/-- Generic 400 raised by add_knowledge_queue on any exception during the
commit. -/
def queueAddFailedError : HTTPError :=
  { status_code := 400, detail := "Failed to add knowledge queue.",
    wwwAuthenticateBearer := false }

/-- Model of service.py `add_folder`: build the row (ORM defaults applied),
stamp the creation time server-side, add and commit; any exception rolls
back and becomes the 400 "Failed to add folder." error. -/
def add_folder (folder_data : FolderCreate) (user_id : Nat) (now : Nat)
    (db : DB) (exc : Option StoreExc) : DB × CreateOutcome Folder :=
  let new_folder : Folder :=
    { id := nextId (db.folders.map (fun f => f.id)),
      text_folder := folder_data.text_folder,
      number_of_topics := 0,
      last_open_date_time := some now,
      user_id := user_id }
  match exc with
  | none => ({ db with folders := db.folders ++ [new_folder] }, .ok new_folder)
  | some _ => (db, .domainError folderAddFailedError)

/-- Model of service.py `get_user_folders`: all folders whose user_id
equals the given user id. -/
def get_user_folders (user_id : Nat) (db : DB) : List Folder :=
  db.folders.filter (fun f => f.user_id == user_id)

/-- Model of service.py `add_theme`: row built from the payload and the
structural parent folder id only; no ownership check against any user. -/
def add_theme (theme_data : ThemeCreate) (folder_id : Nat) (now : Nat)
    (db : DB) (exc : Option StoreExc) : DB × CreateOutcome Theme :=
  let new_theme : Theme :=
    { id := nextId (db.themes.map (fun t => t.id)),
      name_theme := theme_data.name_theme,
      last_open_date_time := some now,
      number_of_records := 0,
      folder_id := folder_id }
  match exc with
  | none => ({ db with themes := db.themes ++ [new_theme] }, .ok new_theme)
  | some _ => (db, .domainError themeAddFailedError)

/-- Model of service.py `get_themes_by_folder`: all themes of a folder. -/
def get_themes_by_folder (folder_id : Nat) (db : DB) : List Theme :=
  db.themes.filter (fun t => t.folder_id == folder_id)

/-- Model of service.py `add_record`: row built from the payload and the
structural parent theme id only; no ownership check against any user. -/
def add_record (record_data : RecordCreate) (theme_id : Nat) (now : Nat)
    (db : DB) (exc : Option StoreExc) : DB × CreateOutcome Record :=
  let new_record : Record :=
    { id := nextId (db.records.map (fun r => r.id)),
      name_record := record_data.name_record,
      text_records := record_data.text_records,
      last_open_date_time := some now,
      count_text := 0,
      theme_id := theme_id }
  match exc with
  | none => ({ db with records := db.records ++ [new_record] }, .ok new_record)
  | some _ => (db, .domainError recordAddFailedError)

/-- Model of service.py `get_records_by_theme`: all records of a theme. -/
def get_records_by_theme (theme_id : Nat) (db : DB) : List Record :=
  db.records.filter (fun r => r.theme_id == theme_id)

/-- Model of service.py `add_knowledge_queue`: row built from the payload,
then the creation time is stamped server-side and `next_alert_card` is
overwritten with None regardless of what the caller supplied. -/
def add_knowledge_queue (queue_data : KnowledgeQueueCreate) (user_id : Nat)
    (now : Nat) (db : DB) (exc : Option StoreExc) :
    DB × CreateOutcome KnowledgeQueue :=
  let new_queue : KnowledgeQueue :=
    { id := nextId (db.queues.map (fun q => q.id)),
      content_knowledge_queue := queue_data.content_knowledge_queue,
      completed_task_status := false,
      number_of_cycles := 0,
      create_date_time := some now,
      next_alert_card := none,
      user_id := user_id }
  match exc with
  | none => ({ db with queues := db.queues ++ [new_queue] }, .ok new_queue)
  | some _ => (db, .domainError queueAddFailedError)

/-- Model of service.py `get_knowledge_queues_by_user`. -/
def get_knowledge_queues_by_user (user_id : Nat) (db : DB) :
    List KnowledgeQueue :=
  db.queues.filter (fun q => q.user_id == user_id)

/-! ## Router endpoints (router.py) -/

/-- Model of the POST /reg handler `add_user`: the `check_unique_login`
dependency runs first and short-circuits with its 409 before `create_user`
is reached. -/
def add_user (user : UserCreate) (db : DB) (exc : Option StoreExc) :
    DB × CreateOutcome RegResponse :=
  match check_unique_login user db with
  | some e => (db, .domainError e)
  | none => create_user user db exc

/-- The 401 raised by the login handler on authentication failure. -/
def incorrectCredentialsError : HTTPError :=
  { status_code := 401, detail := "Incorrect username or password",
    wwwAuthenticateBearer := true }

/-- Successful login response: the token body returned to the caller and
the value set for the HTTP-only `access_token` cookie. -/
structure TokenOut where
  access_token : JWT
  token_type : String
  cookie_access_token : JWT
deriving DecidableEq, Repr

/-- Model of the POST /login handler `login_for_access_token`: authenticate
(the payload's `hashed_password` field is passed as the plaintext
password); any failure raises the single 401; on success issue a token for
the user's login with the configured TTL as the explicit expires_delta,
set it as the `access_token` cookie and return it. -/
def login_for_access_token (user : UserInDB) (db : DB) (key : String)
    (now : Nat) (default_minutes : Nat) : Except HTTPError TokenOut :=
  match authenticate_user db user.username user.hashed_password with
  | none => .error incorrectCredentialsError
  | some u =>
    let tok := create_access_token (some u.login) (some (default_minutes * 60))
      now key default_minutes
    .ok { access_token := tok, token_type := "bearer",
          cookie_access_token := tok }

/-- Model of the POST /add_one_folder handler: resolve the current user
from the `access_token` cookie, then create the folder with the
authenticated user's id as owner. -/
def add_one_folder (folder_data : FolderCreate) (cookie : Option JWT)
    (key : String) (now : Nat) (db : DB) (exc : Option StoreExc) :
    DB × CreateOutcome Folder :=
  match get_current_user cookie db key now with
  | .error e => (db, .domainError e)
  | .ok u => add_folder folder_data u.id now db exc

/-- Model of the GET /folders handler: resolve the current user from the
cookie, then list that user's folders. -/
def read_user_folders (cookie : Option JWT) (key : String) (now : Nat)
    (db : DB) : Except HTTPError (List Folder) :=
  match get_current_user cookie db key now with
  | .error e => .error e
  | .ok u => .ok (get_user_folders u.id db)

/-- Model of the POST /folders/(folder_id)/add_theme handler: the current
user is resolved for authentication only; the create uses the path's
folder_id with no check that it belongs to the resolved user. -/
def create_theme (folder_id : Nat) (theme_data : ThemeCreate)
    (cookie : Option JWT) (key : String) (now : Nat) (db : DB)
    (exc : Option StoreExc) : DB × CreateOutcome Theme :=
  match get_current_user cookie db key now with
  | .error e => (db, .domainError e)
  | .ok _ => add_theme theme_data folder_id now db exc

/-- Model of the GET /folders/(folder_id)/themes handler `read_themes`: the
handler declares no identity dependency, so the request's cookie is
ignored and the folder's themes are returned unconditionally. -/
def read_themes (_cookie : Option JWT) (folder_id : Nat) (db : DB) :
    Except HTTPError (List Theme) :=
  .ok (get_themes_by_folder folder_id db)

/-- Model of the POST /themes/(theme_id)/add_record handler: the current
user is resolved for authentication only; the create uses the path's
theme_id with no check that it belongs to the resolved user. -/
def create_record (theme_id : Nat) (record_data : RecordCreate)
    (cookie : Option JWT) (key : String) (now : Nat) (db : DB)
    (exc : Option StoreExc) : DB × CreateOutcome Record :=
  match get_current_user cookie db key now with
  | .error e => (db, .domainError e)
  | .ok _ => add_record record_data theme_id now db exc

/-- Model of the GET /themes/(theme_id)/records handler `read_records`: the
handler declares no identity dependency, so the request's cookie is
ignored and the theme's records are returned unconditionally. -/
def read_records (_cookie : Option JWT) (theme_id : Nat) (db : DB) :
    Except HTTPError (List Record) :=
  .ok (get_records_by_theme theme_id db)

/-- Model of the POST /knowledge_queue handler: resolve the current user,
then create the entry owned by the authenticated user. -/
def create_knowledge_queue (queue_data : KnowledgeQueueCreate)
    (cookie : Option JWT) (key : String) (now : Nat) (db : DB)
    (exc : Option StoreExc) : DB × CreateOutcome KnowledgeQueue :=
  match get_current_user cookie db key now with
  | .error e => (db, .domainError e)
  | .ok u => add_knowledge_queue queue_data u.id now db exc

/-- Model of the GET /knowledge_queue handler: resolve the current user,
then list that user's knowledge-queue entries. -/
def read_knowledge_queue (cookie : Option JWT) (key : String) (now : Nat)
    (db : DB) : Except HTTPError (List KnowledgeQueue) :=
  match get_current_user cookie db key now with
  | .error e => .error e
  | .ok u => .ok (get_knowledge_queues_by_user u.id db)

/-! ## Spec-side definition for the Identity Resolver refinement claim -/

/-- Identity Resolver contract written from the spec's words, for
comparison with `get_current_user`: resolution succeeds exactly when a
token is present and structurally well-formed, its signature is the
correct signature of its payload under the process key, it is not reported
expired by validation, its payload carries a subject, and the subject maps
to an existing user; the result is that user. -/
def identityResolverSpec (token : Option JWT) (db : DB) (key : String)
    (now : Nat) : Option User :=
  match token with
  | some (.signed p sig) =>
    if sig == jwtSign key p && !(decide (p.exp < now)) then
      match p.sub with
      | some s => get_user db s
      | none => none
    else none
  | _ => none

/-! ## Concrete fixtures used by witnesses and counterexamples -/

/-- Registration payload for the user alice. -/
def aliceCreate : UserCreate := { login := "alice", password := "pw1" }

/-- The users row created by registering alice into the empty store. -/
def aliceRow : User :=
  { id := 1, login := "alice", password := get_password_hash "pw1" }

/-- Store after alice has registered into the empty store. -/
def aliceDB : DB := { DB.empty with users := [aliceRow] }

/-- Payload of a token for alice expiring at time 10000. -/
def alicePayload : JWTPayload := { sub := some "alice", exp := 10000 }

/-- Correctly signed token for alice under the key "secret". -/
def aliceToken : JWT := jwtEncode alicePayload "secret"

/-- A folder owned by user id 2 (not alice, whose id is 1). -/
def otherUsersFolder : Folder :=
  { id := 1, text_folder := "Spanish", number_of_topics := 0,
    last_open_date_time := some 0, user_id := 2 }

/-- A theme stored under folder 1. -/
def themeRow : Theme :=
  { id := 1, name_theme := "verbs", last_open_date_time := some 0,
    number_of_records := 0, folder_id := 1 }

/-- A record stored under theme 1. -/
def recordRow : Record :=
  { id := 1, name_record := "ser", text_records := "to be",
    last_open_date_time := some 0, count_text := 0, theme_id := 1 }

/-- Store holding alice, a folder owned by a different user (id 2), and a
theme and a record under that folder's hierarchy. -/
def fixtureDB : DB :=
  { users := [aliceRow], folders := [otherUsersFolder],
    themes := [themeRow], records := [recordRow], queues := [] }

/-! ## Helper lemmas -/

/-- Helper: the head of a login-filtered user list carries that login. -/
theorem head_filter_login_eq (l : List User) (s : String) (u : User)
    (h : (l.filter (fun x => x.login == s)).head? = some u) : u.login = s := by
  induction l with
  | nil => simp [List.filter] at h
  | cons a t ih =>
    rw [List.filter_cons] at h
    by_cases hb : (a.login == s) = true
    · rw [if_pos hb] at h
      simp only [List.head?_cons, Option.some.injEq] at h
      subst h
      exact beq_iff_eq.mp hb
    · rw [if_neg hb] at h
      exact ih h

/-- Helper: a user found by get_user has the looked-up login. -/
theorem get_user_login (db : DB) (s : String) (u : User)
    (h : get_user db s = some u) : u.login = s :=
  head_filter_login_eq db.users s u h

/-- Helper: a bcrypt hash is never the plaintext it hashes (the scheme
prefix makes it strictly longer). -/
theorem get_password_hash_ne (p : String) : get_password_hash p ≠ p := by
  intro h
  have hl := congrArg String.length h
  rw [get_password_hash, String.length_append] at hl
  have h7 : ("$2b$12$" : String).length = 7 := by decide
  rw [h7] at hl
  omega

/-- Helper: a passing uniqueness pre-check means no stored user has the
login. -/
theorem check_unique_login_none (user : UserCreate) (db : DB)
    (hNo : check_unique_login user db = none) :
    get_user db user.login = none := by
  unfold check_unique_login at hNo
  cases h : get_user db user.login with
  | none => rfl
  | some u => rw [h] at hNo; cases hNo

/-! ## Claim theorems -/

/-- C1 counterexample: the theme-list and record-list handlers are reached
with no access_token cookie at all and still return entity rows instead of
an unauthorized error, so not every protected entity operation rejects a
cookie-less request. -/
theorem C1_listing_without_cookie_counterexample :
    read_themes none 1 fixtureDB = .ok [themeRow] ∧
    read_records none 1 fixtureDB = .ok [recordRow] := by
  constructor <;> decide

/-- C1 (amended): folder create/list, theme create, record create and
knowledge-queue create/list resolve the caller from the access_token
cookie and reject every request whose cookie fails identity resolution
with that unauthorized error before touching entity data, leaving the
store unchanged; the theme-list and record-list handlers declare no
identity dependency and return the parent's entity rows regardless of the
cookie. -/
theorem C1_cookie_auth_amended (cookie : Option JWT) (key : String)
    (now : Nat) (db : DB) (e : HTTPError) (fd : FolderCreate)
    (td : ThemeCreate) (rd : RecordCreate) (qd : KnowledgeQueueCreate)
    (fid tid : Nat) (exc : Option StoreExc)
    (hAuth : get_current_user cookie db key now = .error e) :
    add_one_folder fd cookie key now db exc = (db, .domainError e) ∧
    read_user_folders cookie key now db = .error e ∧
    create_theme fid td cookie key now db exc = (db, .domainError e) ∧
    create_record tid rd cookie key now db exc = (db, .domainError e) ∧
    create_knowledge_queue qd cookie key now db exc = (db, .domainError e) ∧
    read_knowledge_queue cookie key now db = .error e ∧
    read_themes cookie fid db = .ok (get_themes_by_folder fid db) ∧
    read_records cookie tid db = .ok (get_records_by_theme tid db) := by
  refine ⟨?_, ?_, ?_, ?_, ?_, ?_, rfl, rfl⟩ <;>
    simp [add_one_folder, read_user_folders, create_theme, create_record,
      create_knowledge_queue, read_knowledge_queue, hAuth]

/-- C1 witness: with no cookie, folder creation is rejected with the 401
and the store is untouched, while theme listing still returns data. -/
theorem C1_cookie_auth_amended_witness :
    add_one_folder { text_folder := "Spanish" } none "secret" 0 fixtureDB
      none = (fixtureDB, .domainError credentials_exception) ∧
    read_themes none 1 fixtureDB =
      .ok (get_themes_by_folder 1 fixtureDB) := by
  have h := C1_cookie_auth_amended none "secret" 0 fixtureDB
    credentials_exception { text_folder := "Spanish" }
    { name_theme := "x" } { name_record := "y", text_records := "z" }
    { content_knowledge_queue := "c", next_alert_card := none } 1 1 none rfl
  exact ⟨h.1, h.2.2.2.2.2.2.1⟩

/-- C2 counterexample: after alice registers, a second identical
registration is rejected by the uniqueness pre-check with the 409
login-taken conflict, while the insert-time integrity-violation path of
create_user raises a 400 with a different message — the two rejection
paths do not produce the same error. -/
theorem C2_conflict_paths_differ_counterexample :
    (add_user aliceCreate aliceDB none).2 = .domainError loginTakenError ∧
    (create_user aliceCreate aliceDB (some .integrityError)).2 =
      .domainError integrityConflictError ∧
    loginTakenError ≠ integrityConflictError := by
  refine ⟨by decide, rfl, by decide⟩

/-- C2 (amended): for every login whose uniqueness pre-check passes,
registration succeeds, and registering the same login again is rejected
with the 409 login-taken conflict; the insert-time integrity-violation
path also rejects, but with a different conflict (400, different
message), so the two rejection paths are distinguishable to the caller. -/
theorem C2_register_twice_amended (user : UserCreate) (db : DB)
    (exc : Option StoreExc) (hNo : check_unique_login user db = none) :
    (add_user user db none).2 =
      .ok { status := 201,
            data := { id := nextId (db.users.map (fun u => u.id)),
                      login := user.login,
                      password := get_password_hash user.password } } ∧
    (add_user user (add_user user db none).1 exc).2 =
      .domainError loginTakenError ∧
    (add_user user db (some .integrityError)).2 =
      .domainError integrityConflictError ∧
    loginTakenError ≠ integrityConflictError := by
  have hGU := check_unique_login_none user db hNo
  have hFilter : db.users.filter (fun u => u.login == user.login) = [] := by
    unfold get_user at hGU
    exact List.head?_eq_none_iff.mp hGU
  refine ⟨by simp [add_user, hNo, create_user], ?_,
    by simp [add_user, hNo, create_user], by decide⟩
  have hDb1 : (add_user user db none).1 =
      { db with users := db.users ++
          [{ id := nextId (db.users.map (fun u => u.id)),
             login := user.login,
             password := get_password_hash user.password }] } := by
    simp [add_user, hNo, create_user]
  rw [hDb1]
  have hTaken : check_unique_login user
      { db with users := db.users ++
          [{ id := nextId (db.users.map (fun u => u.id)),
             login := user.login,
             password := get_password_hash user.password }] } =
      some loginTakenError := by
    unfold check_unique_login get_user
    simp [List.filter_append, hFilter]
  simp [add_user, hTaken]

/-- C2 witness: registering alice into the empty store succeeds, a second
registration is rejected with the 409, and the two conflict paths differ. -/
theorem C2_register_twice_witness :
    (add_user aliceCreate (add_user aliceCreate DB.empty none).1 none).2 =
      .domainError loginTakenError ∧
    loginTakenError ≠ integrityConflictError := by
  have h := C2_register_twice_amended aliceCreate DB.empty none rfl
  exact ⟨h.2.1, h.2.2.2⟩

/-- C3 (confirmed): a login attempt that fails because the login is
unknown and one that fails because the stored hash does not verify both
produce the single 401 invalid-credentials error, so the two runs are
indistinguishable from the response. -/
theorem C3_login_failures_indistinguishable (db1 db2 : DB)
    (uname1 p1 uname2 p2 key1 key2 : String) (now1 now2 dm1 dm2 : Nat)
    (u : User)
    (hUnknown : get_user db1 uname1 = none)
    (hFound : get_user db2 uname2 = some u)
    (hBadPw : verify_password p2 u.password = false) :
    login_for_access_token { username := uname1, hashed_password := p1 }
      db1 key1 now1 dm1 = .error incorrectCredentialsError ∧
    login_for_access_token { username := uname2, hashed_password := p2 }
      db2 key2 now2 dm2 = .error incorrectCredentialsError ∧
    login_for_access_token { username := uname1, hashed_password := p1 }
      db1 key1 now1 dm1 =
      login_for_access_token { username := uname2, hashed_password := p2 }
        db2 key2 now2 dm2 := by
  have h1 : authenticate_user db1 uname1 p1 = none := by
    simp [authenticate_user, hUnknown]
  have h2 : authenticate_user db2 uname2 p2 = none := by
    simp [authenticate_user, hFound, hBadPw]
  refine ⟨?_, ?_, ?_⟩ <;> simp [login_for_access_token, h1, h2]

/-- C3 witness: an unknown-user attempt and a wrong-password attempt
against the store holding alice yield the same login response. -/
theorem C3_login_failures_witness :
    login_for_access_token { username := "bob", hashed_password := "pw" }
      aliceDB "secret" 0 30 =
    login_for_access_token
      { username := "alice", hashed_password := "wrong" }
      aliceDB "secret" 0 30 :=
  (C3_login_failures_indistinguishable aliceDB aliceDB "bob" "pw" "alice"
    "wrong" "secret" "secret" 0 0 30 30 aliceRow (by decide) (by decide)
    (by decide)).2.2

/-- C4 (confirmed): get_current_user equals the spec-side Identity
Resolver: it returns the user exactly when the cookie holds a well-formed,
correctly signed, unexpired token whose subject maps to a stored user, and
in every other case it raises the single 401 credentials exception;
moreover a resolved user's login equals the token's subject. -/
theorem C4_identity_resolver_refines_spec (token : Option JWT) (db : DB)
    (key : String) (now : Nat) :
    (get_current_user token db key now =
      match identityResolverSpec token db key now with
      | some u => .ok u
      | none => .error credentials_exception) ∧
    (∀ p sig u, token = some (.signed p sig) →
      get_current_user token db key now = .ok u → p.sub = some u.login) := by
  constructor
  · cases token with
    | none => rfl
    | some tok =>
      cases tok with
      | malformed raw => rfl
      | signed p sig =>
        unfold get_current_user identityResolverSpec jwtDecode
        by_cases hs : sig = jwtSign key p
        · by_cases he : p.exp < now
          · simp [hs, he]
          · simp only [hs, he]
            cases hsub : p.sub with
            | none => simp [hsub]
            | some s =>
              cases hgu : get_user db s with
              | none => simp [hsub, hgu]
              | some v => simp [hsub, hgu]
        · simp [hs, Ne.symm hs]
  · intro p sig u htok hok
    subst htok
    unfold get_current_user jwtDecode at hok
    by_cases hs : sig = jwtSign key p
    · by_cases he : p.exp < now
      · simp [hs, he] at hok
      · simp [hs, he] at hok
        cases hsub : p.sub with
        | none => rw [hsub] at hok; simp at hok
        | some s =>
          rw [hsub] at hok
          simp only [] at hok
          cases hgu : get_user db s with
          | none => simp [hgu] at hok
          | some v =>
            simp only [hgu, Except.ok.injEq] at hok
            subst hok
            rw [get_user_login db s v hgu]
    · simp [hs] at hok

/-- C4 witness: alice's correctly signed, unexpired token resolves to the
alice row, whose login is the token's subject. -/
theorem C4_identity_resolver_witness :
    get_current_user (some aliceToken) aliceDB "secret" 500 =
      .ok aliceRow ∧
    alicePayload.sub = some aliceRow.login := by
  have h := C4_identity_resolver_refines_spec (some aliceToken) aliceDB
    "secret" 500
  have hok : get_current_user (some aliceToken) aliceDB "secret" 500 =
      .ok aliceRow := by
    rw [h.1]; decide
  exact ⟨hok, h.2 alicePayload (jwtSign "secret" alicePayload) aliceRow
    rfl hok⟩

/-- C5 (code_bug): create_access_token tests Python truthiness of the
expires_delta, so a zero timedelta is routed to the default-TTL branch: a
token issued at time 1000 with ttl 0 under a 30-minute default carries
expiry 2800, and validation at the issue time succeeds instead of
reporting it expired as the spec requires. -/
theorem C5_ttl_zero_not_immediately_expired :
    create_access_token (some "alice") (some 0) 1000 "secret" 30 =
      jwtEncode { sub := some "alice", exp := 2800 } "secret" ∧
    jwtDecode (create_access_token (some "alice") (some 0) 1000 "secret" 30)
      "secret" 1000 = .ok { sub := some "alice", exp := 2800 } := by
  constructor <;> decide

/-- C6 counterexample: a non-integrity store exception during the
create_user commit escapes the repository boundary raw instead of being
converted to a domain error, because the source catches only
IntegrityError there. -/
theorem C6_raw_exception_escapes_counterexample :
    (create_user aliceCreate DB.empty (some .operationalError)).2 =
      .rawException .operationalError := rfl

/-- C6 (amended): for the folder, theme, record and knowledge-queue
creates, every store exception during the commit is caught, the store is
left unchanged and a domain-specific 400 is raised; for the user create
only the integrity violation is caught and converted — any other store
exception escapes raw (with nothing persisted). -/
theorem C6_write_exception_policy_amended (fd : FolderCreate)
    (td : ThemeCreate) (rd : RecordCreate) (qd : KnowledgeQueueCreate)
    (user : UserCreate) (uid fid tid now : Nat) (db : DB) (e : StoreExc) :
    add_folder fd uid now db (some e) =
      (db, .domainError folderAddFailedError) ∧
    add_theme td fid now db (some e) =
      (db, .domainError themeAddFailedError) ∧
    add_record rd tid now db (some e) =
      (db, .domainError recordAddFailedError) ∧
    add_knowledge_queue qd uid now db (some e) =
      (db, .domainError queueAddFailedError) ∧
    create_user user db (some .integrityError) =
      (db, .domainError integrityConflictError) ∧
    create_user user db (some .operationalError) =
      (db, .rawException .operationalError) :=
  ⟨rfl, rfl, rfl, rfl, rfl, rfl⟩

/-- C7 (confirmed): a folder created with owner uid appears in the
subsequent folder listing for uid and in no listing for a different user. -/
theorem C7_folder_create_then_list (fd : FolderCreate) (uid uid2 now : Nat)
    (db : DB) (hne : uid2 ≠ uid) :
    ∃ fl, (add_folder fd uid now db none).2 = .ok fl ∧
      fl ∈ get_user_folders uid (add_folder fd uid now db none).1 ∧
      fl ∉ get_user_folders uid2 (add_folder fd uid now db none).1 := by
  refine ⟨{ id := nextId (db.folders.map (fun f => f.id)),
            text_folder := fd.text_folder, number_of_topics := 0,
            last_open_date_time := some now, user_id := uid }, rfl, ?_, ?_⟩
  · simp [add_folder, get_user_folders, List.mem_filter, List.mem_append]
  · intro hmem
    simp [add_folder, get_user_folders, List.mem_filter,
      List.mem_append] at hmem
    rcases hmem with ⟨_, h⟩ | h <;> exact hne h.symm

/-- C7 witness: the folder created for user 1 in the empty store is listed
for user 1 and not listed for user 2. -/
theorem C7_folder_create_then_list_witness :
    ∃ fl, (add_folder { text_folder := "Spanish" } 1 0 DB.empty none).2 =
        .ok fl ∧
      fl ∈ get_user_folders 1
        (add_folder { text_folder := "Spanish" } 1 0 DB.empty none).1 ∧
      fl ∉ get_user_folders 2
        (add_folder { text_folder := "Spanish" } 1 0 DB.empty none).1 :=
  C7_folder_create_then_list { text_folder := "Spanish" } 1 2 0 DB.empty
    (by decide)

/-- C8 (confirmed): with any authenticated user — including one owning no
folder in the store at all — theme creation under any folder id and record
creation under any theme id succeed using only the structural parent id,
and the list handlers return the parent's rows; no ownership check against
the requesting user occurs. -/
theorem C8_no_parent_ownership_check (td : ThemeCreate) (rd : RecordCreate)
    (cookie : Option JWT) (key : String) (now fid tid : Nat) (db : DB)
    (u : User) (hAuth : get_current_user cookie db key now = .ok u)
    (_hNotOwner : ∀ fl ∈ db.folders, fl.user_id ≠ u.id) :
    (create_theme fid td cookie key now db none).2 =
      .ok { id := nextId (db.themes.map (fun t => t.id)),
            name_theme := td.name_theme, last_open_date_time := some now,
            number_of_records := 0, folder_id := fid } ∧
    (create_record tid rd cookie key now db none).2 =
      .ok { id := nextId (db.records.map (fun r => r.id)),
            name_record := rd.name_record,
            text_records := rd.text_records,
            last_open_date_time := some now, count_text := 0,
            theme_id := tid } ∧
    read_themes cookie fid db = .ok (get_themes_by_folder fid db) ∧
    read_records cookie tid db = .ok (get_records_by_theme tid db) := by
  refine ⟨?_, ?_, rfl, rfl⟩ <;>
    simp [create_theme, create_record, hAuth, add_theme, add_record]

/-- C8 witness: alice (id 1), who owns no folder in the fixture store
(its only folder belongs to user 2), creates a theme under that foreign
folder successfully. -/
theorem C8_no_parent_ownership_check_witness :
    (create_theme 1 { name_theme := "verbs2" } (some aliceToken) "secret"
        500 fixtureDB none).2 =
      .ok { id := nextId (fixtureDB.themes.map (fun t => t.id)),
            name_theme := "verbs2", last_open_date_time := some 500,
            number_of_records := 0, folder_id := 1 } :=
  (C8_no_parent_ownership_check { name_theme := "verbs2" }
    { name_record := "ir", text_records := "to go" } (some aliceToken)
    "secret" 500 1 1 fixtureDB aliceRow (by decide) (by decide)).1

/-- C9 (confirmed): every successful knowledge-queue create stores and
returns an entry whose next-alert field is null — whatever next-alert
value the caller supplied — and whose creation timestamp is the
server-side clock value. -/
theorem C9_next_alert_nulled (qd : KnowledgeQueueCreate) (uid now : Nat)
    (db : DB) :
    ∃ q, (add_knowledge_queue qd uid now db none).2 = .ok q ∧
      q.next_alert_card = none ∧
      q.create_date_time = some now ∧
      (add_knowledge_queue qd uid now db none).1.queues =
        db.queues ++ [q] :=
  ⟨{ id := nextId (db.queues.map (fun q => q.id)),
     content_knowledge_queue := qd.content_knowledge_queue,
     completed_task_status := false, number_of_cycles := 0,
     create_date_time := some now, next_alert_card := none,
     user_id := uid }, rfl, rfl, rfl, rfl⟩

/-- C10 (confirmed): a successful registration returns the full persisted
user row — the same row appended to the users table, hashed password field
included — and what is stored is the hash of the plaintext, never the
plaintext itself. -/
theorem C10_registration_returns_stored_row (user : UserCreate) (db : DB)
    (hNo : check_unique_login user db = none) :
    ∃ resp, add_user user db none =
        ({ db with users := db.users ++ [resp.data] }, .ok resp) ∧
      resp.status = 201 ∧
      resp.data.password = get_password_hash user.password ∧
      resp.data.password ≠ user.password := by
  refine ⟨{ status := 201,
            data := { id := nextId (db.users.map (fun u => u.id)),
                      login := user.login,
                      password := get_password_hash user.password } },
    ?_, rfl, rfl, get_password_hash_ne user.password⟩
  simp [add_user, hNo, create_user]

/-- C10 witness: registering alice into the empty store persists and
returns the hashed-password row. -/
theorem C10_registration_returns_stored_row_witness :
    ∃ resp, add_user aliceCreate DB.empty none =
        ({ DB.empty with users := DB.empty.users ++ [resp.data] },
          .ok resp) ∧
      resp.status = 201 ∧
      resp.data.password = get_password_hash aliceCreate.password ∧
      resp.data.password ≠ aliceCreate.password :=
  C10_registration_returns_stored_row aliceCreate DB.empty rfl

end MindRemember
